import Mathlib

/-!
Verification of the Poco `LogStream.h` line-buffering log adapter
(`Poco::LogStreamBuf` / `Poco::LogStream`).

The header declares a streambuf that appends every character written to it
to an internal string `_message`; as soon as a CR or LF is written, the
string is sent to the Logger with the currently set priority, and the
buffer is cleared.  The `LogStream` class layers a severity façade
(`fatal`, `critical`, `error`, ...) on top.

The Logger sink is external: we model an emission as a pair
(text, priority) appended to an observable trace.  Method bodies that are
not present in the header (they live in `LogStream.cpp`, which is not part
of the provided sources) are modelled from the specification; each such
definition carries a doc comment saying so.
-/

namespace Poco

/-- The `Message::Priority` enumeration used by the adapter
(fatal down to trace). -/
inductive Priority where
  | PRIO_FATAL
  | PRIO_CRITICAL
  | PRIO_ERROR
  | PRIO_WARNING
  | PRIO_NOTICE
  | PRIO_INFORMATION
  | PRIO_DEBUG
  | PRIO_TRACE
  deriving DecidableEq, Repr

/-- One call to the logging sink: a finished line of text together with
the severity it was emitted at (`Message msg(_logger.name(), _message,
_priority); _logger.log(msg)`). -/
structure Emission where
  text : List Char
  prio : Priority
  deriving DecidableEq, Repr

/-- The state of a `LogStreamBuf`: the current priority `_priority`, the
line buffer `_message`, the buffer capacity `_message.capacity()`, and the
observable trace of emissions already handed to the Logger sink. -/
structure LogStreamBuf where
  priority : Priority
  message : List Char
  cap : Nat
  emissions : List Emission
  deriving DecidableEq, Repr

/-- A character is a line terminator when it is a carriage-return or a
line-feed (header doc: "As soon as a CR or LF (std::endl) is written, the
string is sent to the Logger"). -/
def isTerm (c : Char) : Bool :=
  c = '\r' || c = '\n'

/-- End-of-file sentinel of the streambuf interface: a negative return
value from `writeToDevice` would signal failure. -/
def eofResult : Int := -1

/-- Modelled from the spec: the body of `LogStreamBuf::writeToDevice` is
not in the provided sources (only its declaration).  Spec 4.1: "append `c`
to the buffer unless `c` is a line terminator (carriage-return or
line-feed); if it is a terminator, emit the buffered text plus the current
severity to the sink, then clear the buffer.  Returns success
unconditionally."  The returned `Int` is the written character's value
(never `eofResult`). -/
def writeToDevice (c : Char) (s : LogStreamBuf) : LogStreamBuf × Int :=
  if isTerm c then
    ({ s with
        message := []
        emissions := s.emissions ++ [⟨s.message, s.priority⟩] }, (c.toNat : Int))
  else
    ({ s with message := s.message ++ [c] }, (c.toNat : Int))

/-- Write a whole string, one character at a time, through
`writeToDevice` (the stream is unbuffered, so `operator<<` on the
`LogStream` reduces to per-character writes). -/
def writeString (m : List Char) (s : LogStreamBuf) : LogStreamBuf :=
  m.foldl (fun t c => (writeToDevice c t).1) s

/-- Modelled from the spec: the body of `LogStreamBuf::setPriority` is not
in the provided sources.  Header doc: "Sets the priority for log
messages." -/
def setPriority (p : Priority) (s : LogStreamBuf) : LogStreamBuf :=
  { s with priority := p }

/-- `LogStreamBuf::getPriority`, inline in the header: returns
`_priority`. -/
def getPriority (s : LogStreamBuf) : Priority :=
  s.priority

/-- `LogStreamBuf::capacity`, inline in the header: returns
`_message.capacity()`. -/
def capacity (s : LogStreamBuf) : Nat :=
  s.cap

/-- Modelled from the spec: the body of `LogStreamBuf::reserve` is not in
the provided sources.  Header doc: "Sets the capacity of the internal
message buffer to the given size"; spec 4.1: "pre-allocates buffer
storage".  Like `std::string::reserve`, the capacity never shrinks below
what is already held, and afterwards is at least the requested size. -/
def reserve (n : Nat) (s : LogStreamBuf) : LogStreamBuf :=
  { s with cap := max s.cap n }

/-- Modelled from the spec: spec 4.1 `flush()` / destruction — "if the
buffer is non-empty, emit its contents at the current severity, then
clear". -/
def flush (s : LogStreamBuf) : LogStreamBuf :=
  if s.message.isEmpty then s
  else
    { s with
        message := []
        emissions := s.emissions ++ [⟨s.message, s.priority⟩] }

/-- Modelled from the spec: destruction of the adapter behaves like
`flush` — "on destruction, any buffered partial line should be flushed
(emitted) rather than silently dropped" (spec 3, Lifecycle). -/
def destroy (s : LogStreamBuf) : LogStreamBuf :=
  flush s

/-- Modelled from the spec: the `LogStreamBuf` constructor body is not in
the provided sources.  It binds the logger, stores the given priority, and
pre-allocates `bufferCapacity` bytes of buffer storage; the buffer starts
empty and nothing has been emitted. -/
def mkLogStreamBuf (p : Priority) (bufferCapacity : Nat) : LogStreamBuf :=
  { priority := p, message := [], cap := bufferCapacity, emissions := [] }

/-- `LogStream::DEFAULT_BUFFER_CAPACITY`, from the header. -/
def DEFAULT_BUFFER_CAPACITY : Nat := 255

namespace LogStream

/-- A `LogStream` constructed from a logger alone: the header's default
arguments are `priority = Message::PRIO_INFORMATION` and `bufferCapacity =
DEFAULT_BUFFER_CAPACITY`. -/
def mkDefault : LogStreamBuf :=
  mkLogStreamBuf Priority.PRIO_INFORMATION DEFAULT_BUFFER_CAPACITY

/-- Modelled from the spec: the body of `LogStream::fatal(const
std::string&)` is not in the provided sources.  Header doc / spec 4.2:
sets the priority to `PRIO_FATAL`, then writes the given message followed
by a line terminator. -/
def fatal (m : List Char) (s : LogStreamBuf) : LogStreamBuf :=
  writeString (m ++ ['\n']) (setPriority Priority.PRIO_FATAL s)

/-- Modelled from the spec: `LogStream::critical(const std::string&)`;
sets the priority to `PRIO_CRITICAL`, then writes the message plus a
terminator. -/
def critical (m : List Char) (s : LogStreamBuf) : LogStreamBuf :=
  writeString (m ++ ['\n']) (setPriority Priority.PRIO_CRITICAL s)

/-- Modelled from the spec: `LogStream::error(const std::string&)`; sets
the priority to `PRIO_ERROR`, then writes the message plus a
terminator. -/
def error (m : List Char) (s : LogStreamBuf) : LogStreamBuf :=
  writeString (m ++ ['\n']) (setPriority Priority.PRIO_ERROR s)

/-- Modelled from the spec: `LogStream::warning(const std::string&)`; sets
the priority to `PRIO_WARNING`, then writes the message plus a
terminator. -/
def warning (m : List Char) (s : LogStreamBuf) : LogStreamBuf :=
  writeString (m ++ ['\n']) (setPriority Priority.PRIO_WARNING s)

/-- Modelled from the spec: `LogStream::notice(const std::string&)`; sets
the priority to `PRIO_NOTICE`, then writes the message plus a
terminator. -/
def notice (m : List Char) (s : LogStreamBuf) : LogStreamBuf :=
  writeString (m ++ ['\n']) (setPriority Priority.PRIO_NOTICE s)

/-- Modelled from the spec: `LogStream::information(const std::string&)`;
sets the priority to `PRIO_INFORMATION`, then writes the message plus a
terminator. -/
def information (m : List Char) (s : LogStreamBuf) : LogStreamBuf :=
  writeString (m ++ ['\n']) (setPriority Priority.PRIO_INFORMATION s)

/-- Modelled from the spec: `LogStream::debug(const std::string&)`; sets
the priority to `PRIO_DEBUG`, then writes the message plus a
terminator. -/
def debug (m : List Char) (s : LogStreamBuf) : LogStreamBuf :=
  writeString (m ++ ['\n']) (setPriority Priority.PRIO_DEBUG s)

/-- Modelled from the spec: `LogStream::trace(const std::string&)`; sets
the priority to `PRIO_TRACE`, then writes the message plus a
terminator. -/
def trace (m : List Char) (s : LogStreamBuf) : LogStreamBuf :=
  writeString (m ++ ['\n']) (setPriority Priority.PRIO_TRACE s)

end LogStream

/-- The operations a client can perform on the adapter (spec 4.1). -/
inductive Op where
  | write (c : Char)
  | setSeverity (p : Priority)
  | reserveCap (n : Nat)
  | flushBuf
  deriving DecidableEq, Repr

/-- One step of the adapter's public interface. -/
def step (s : LogStreamBuf) (op : Op) : LogStreamBuf :=
  match op with
  | Op.write c => (writeToDevice c s).1
  | Op.setSeverity p => setPriority p s
  | Op.reserveCap n => reserve n s
  | Op.flushBuf => flush s

/-- Run a sequence of operations. -/
def run (ops : List Op) (s : LogStreamBuf) : LogStreamBuf :=
  ops.foldl step s

/-! ### Helper lemmas -/

theorem writeString_append (a b : List Char) (s : LogStreamBuf) :
    writeString (a ++ b) s = writeString b (writeString a s) := by
  simp [writeString, List.foldl_append]

theorem writeString_no_term (m : List Char) (s : LogStreamBuf)
    (hm : m.all (fun c => !(isTerm c)) = true) :
    writeString m s = { s with message := s.message ++ m } := by
  induction m generalizing s with
  | nil => simp [writeString]
  | cons c cs ih =>
    simp only [List.all_cons, Bool.and_eq_true, Bool.not_eq_true'] at hm
    have hstep : (writeToDevice c s).1 = { s with message := s.message ++ [c] } := by
      simp [writeToDevice, hm.1]
    calc writeString (c :: cs) s = writeString cs (writeToDevice c s).1 := rfl
      _ = writeString cs { s with message := s.message ++ [c] } := by rw [hstep]
      _ = { s with message := (s.message ++ [c]) ++ cs } := ih _ hm.2
      _ = { s with message := s.message ++ (c :: cs) } := by simp

theorem facade_emits (p : Priority) (m : List Char) (s : LogStreamBuf)
    (hm : m.all (fun c => !(isTerm c)) = true) (hs : s.message = []) :
    (writeString (m ++ ['\n']) (setPriority p s)).emissions
      = s.emissions ++ [⟨m, p⟩] ∧
    (writeString (m ++ ['\n']) (setPriority p s)).message = [] := by
  rw [writeString_append]
  have h1 : writeString m (setPriority p s)
      = { setPriority p s with message := m } := by
    rw [writeString_no_term m (setPriority p s) hm]
    simp [setPriority, hs]
  rw [h1]
  constructor <;> simp [writeString, writeToDevice, isTerm, setPriority]

/-! ### Claim theorems -/

/-- Claim C1: `write(c)` appends a non-terminator `c` to the line buffer
with no sink emission; a terminator makes it emit the buffered text at the
current severity and clear the buffer.  Writing `"abc"` followed by a
line-feed produces exactly one emission `"abc"` at the current severity,
and the buffer is empty afterward. -/
theorem write_appends_or_emits_line (c : Char) (s : LogStreamBuf) :
    (isTerm c = false →
      (writeToDevice c s).1.message = s.message ++ [c] ∧
      (writeToDevice c s).1.emissions = s.emissions) ∧
    (isTerm c = true →
      (writeToDevice c s).1.emissions = s.emissions ++ [⟨s.message, s.priority⟩] ∧
      (writeToDevice c s).1.message = []) ∧
    (writeString ['a', 'b', 'c', '\n'] (mkLogStreamBuf s.priority 0)).emissions
      = [⟨['a', 'b', 'c'], s.priority⟩] ∧
    (writeString ['a', 'b', 'c', '\n'] (mkLogStreamBuf s.priority 0)).message = [] := by
  refine ⟨fun h => ?_, fun h => ?_, ?_, ?_⟩
  · simp [writeToDevice, h]
  · simp [writeToDevice, h]
  · simp [writeString, writeToDevice, isTerm, mkLogStreamBuf]
  · simp [writeString, writeToDevice, isTerm, mkLogStreamBuf]

/-- Witness for C1 at concrete inputs: `'a'` is appended without emission,
and writing `"abc"` plus a line-feed from a fresh adapter emits exactly
one line. -/
theorem write_appends_or_emits_line_witness :
    ((writeToDevice 'a' (mkLogStreamBuf Priority.PRIO_DEBUG 0)).1.message
        = (mkLogStreamBuf Priority.PRIO_DEBUG 0).message ++ ['a'] ∧
      (writeToDevice 'a' (mkLogStreamBuf Priority.PRIO_DEBUG 0)).1.emissions
        = (mkLogStreamBuf Priority.PRIO_DEBUG 0).emissions) ∧
    (writeString ['a', 'b', 'c', '\n'] (mkLogStreamBuf Priority.PRIO_DEBUG 0)).emissions
      = [⟨['a', 'b', 'c'], Priority.PRIO_DEBUG⟩] :=
  ⟨(write_appends_or_emits_line 'a' (mkLogStreamBuf Priority.PRIO_DEBUG 0)).1 (by decide),
    (write_appends_or_emits_line 'a' (mkLogStreamBuf Priority.PRIO_DEBUG 0)).2.2.1⟩

/-- Claim C2: flushing (or destroying) the adapter while the buffer is
non-empty emits the buffered text as one line at the current severity
exactly once, and clears the buffer; no partial line is dropped. -/
theorem flush_emits_partial_line_once (s : LogStreamBuf) (h : s.message ≠ []) :
    (flush s).emissions = s.emissions ++ [⟨s.message, s.priority⟩] ∧
    (flush s).message = [] ∧
    destroy s = flush s := by
  refine ⟨?_, ?_, rfl⟩ <;> simp [flush, List.isEmpty_iff, h]

/-- Witness for C2: after writing `"partial"` with no terminator, flushing
emits exactly the one line `"partial"` at the current severity. -/
theorem flush_emits_partial_line_once_witness :
    (flush (writeString ['p', 'a', 'r', 't', 'i', 'a', 'l'] LogStream.mkDefault)).emissions
      = [⟨['p', 'a', 'r', 't', 'i', 'a', 'l'], Priority.PRIO_INFORMATION⟩] := by
  have h := flush_emits_partial_line_once
    (writeString ['p', 'a', 'r', 't', 'i', 'a', 'l'] LogStream.mkDefault) (by decide)
  rw [h.1]
  decide

/-- Counterexample to claim C3: writing `"abc"` then a carriage-return
then a line-feed does not produce exactly one sink emission — the model,
following the header doc ("as soon as a CR or LF is written, the string is
sent to the Logger") and spec 4.1, emits on every terminator, so the
line-feed right after the carriage-return emits a second, empty line. -/
theorem crlf_single_emission_counterexample :
    ((writeString ['a', 'b', 'c', '\r', '\n'] LogStream.mkDefault).emissions).length ≠ 1 := by
  decide

/-- Claim C3 (amended): writing `"abc"` followed by a carriage-return and
then a line-feed produces two emissions — the line `"abc"` and then one
empty line — at the current severity; each terminator triggers an emission
independently, and `"abc"` itself is emitted exactly once. -/
theorem crlf_two_emissions (p : Priority) :
    (writeString ['a', 'b', 'c', '\r', '\n'] (mkLogStreamBuf p DEFAULT_BUFFER_CAPACITY)).emissions
      = [⟨['a', 'b', 'c'], p⟩, ⟨[], p⟩] := by
  simp [writeString, writeToDevice, isTerm, mkLogStreamBuf]

/-- Claim C7: `writeToDevice` is total and returns success unconditionally
for every character: the returned value is the character's code point,
never the end-of-file failure sentinel. -/
theorem write_returns_success (c : Char) (s : LogStreamBuf) :
    (writeToDevice c s).2 = (c.toNat : Int) ∧ (writeToDevice c s).2 ≠ eofResult := by
  have h : (writeToDevice c s).2 = (c.toNat : Int) := by
    unfold writeToDevice
    split <;> rfl
  refine ⟨h, ?_⟩
  rw [h]
  simp only [eofResult]
  omega

/-- Claim C9: a `LogStream` constructed with only a logger uses the
header's default arguments: severity `PRIO_INFORMATION` and buffer
capacity `DEFAULT_BUFFER_CAPACITY = 255`; immediately after construction
`getPriority` returns the information level. -/
theorem default_construction_defaults :
    LogStream.mkDefault = mkLogStreamBuf Priority.PRIO_INFORMATION DEFAULT_BUFFER_CAPACITY ∧
    getPriority LogStream.mkDefault = Priority.PRIO_INFORMATION ∧
    capacity LogStream.mkDefault = 255 ∧
    DEFAULT_BUFFER_CAPACITY = 255 ∧
    LogStream.mkDefault.message = [] ∧
    LogStream.mkDefault.emissions = [] := by
  refine ⟨rfl, rfl, ?_, rfl, rfl, rfl⟩
  decide

/-- Claim C10: after `reserve(n)` the public accessor `capacity()` returns
at least `n` (precisely the maximum of the old capacity and `n`, matching
`std::string::reserve`), and `capacity()` always reports the internal
message buffer's capacity field. -/
theorem reserve_grows_capacity (n : Nat) (s : LogStreamBuf) :
    capacity (reserve n s) = max s.cap n ∧
    n ≤ capacity (reserve n s) ∧
    capacity s = s.cap := by
  refine ⟨rfl, ?_, rfl⟩
  simp [capacity, reserve]

/-- Claim C4: `setPriority` never changes already-emitted lines; the
severity attached to an emission is the one in effect at the moment the
terminator arrives; and `setSeverity(warning)` followed by writing `"x"`
plus a terminator emits `("x", warning)`. -/
theorem severity_read_at_emission_time (p : Priority) (c : Char)
    (s t : LogStreamBuf) (hc : isTerm c = true) :
    (setPriority p s).emissions = s.emissions ∧
    (writeToDevice c t).1.emissions = t.emissions ++ [⟨t.message, t.priority⟩] ∧
    (run [Op.setSeverity Priority.PRIO_WARNING, Op.write 'x', Op.write '\n']
        LogStream.mkDefault).emissions = [⟨['x'], Priority.PRIO_WARNING⟩] := by
  refine ⟨rfl, ?_, by decide⟩
  simp [writeToDevice, hc]

/-- Witness for C4 at the terminator `'\n'` and concrete states. -/
theorem severity_read_at_emission_time_witness :
    (setPriority Priority.PRIO_ERROR LogStream.mkDefault).emissions
      = LogStream.mkDefault.emissions ∧
    (writeToDevice '\n' LogStream.mkDefault).1.emissions
      = LogStream.mkDefault.emissions
          ++ [⟨LogStream.mkDefault.message, LogStream.mkDefault.priority⟩] ∧
    (run [Op.setSeverity Priority.PRIO_WARNING, Op.write 'x', Op.write '\n']
        LogStream.mkDefault).emissions = [⟨['x'], Priority.PRIO_WARNING⟩] :=
  severity_read_at_emission_time Priority.PRIO_ERROR '\n'
    LogStream.mkDefault LogStream.mkDefault (by decide)

/-- Counterexample to claim C5: the message-argument façade does not emit
exactly one line `m` for every string `m` — when `m` itself contains a
terminator, e.g. `m = "\n"`, `error(m)` produces two emissions, not
one. -/
theorem facade_single_line_counterexample :
    ((LogStream.error ['\n'] LogStream.mkDefault).emissions).length ≠ 1 := by
  decide

/-- Claim C5 (amended): for every string `m`, each message-argument façade
method equals the sequence "set that severity; write each character of
`m`; write a terminator"; and whenever `m` contains no carriage-return or
line-feed and the line buffer is empty, that sequence emits exactly one
line `m` at that severity, leaving the buffer empty. -/
theorem facade_methods_equivalence (m : List Char) (s : LogStreamBuf)
    (hm : m.all (fun c => !(isTerm c)) = true) (hs : s.message = []) :
    (LogStream.fatal m s = writeString (m ++ ['\n']) (setPriority Priority.PRIO_FATAL s) ∧
      (LogStream.fatal m s).emissions = s.emissions ++ [⟨m, Priority.PRIO_FATAL⟩] ∧
      (LogStream.fatal m s).message = []) ∧
    (LogStream.critical m s = writeString (m ++ ['\n']) (setPriority Priority.PRIO_CRITICAL s) ∧
      (LogStream.critical m s).emissions = s.emissions ++ [⟨m, Priority.PRIO_CRITICAL⟩] ∧
      (LogStream.critical m s).message = []) ∧
    (LogStream.error m s = writeString (m ++ ['\n']) (setPriority Priority.PRIO_ERROR s) ∧
      (LogStream.error m s).emissions = s.emissions ++ [⟨m, Priority.PRIO_ERROR⟩] ∧
      (LogStream.error m s).message = []) ∧
    (LogStream.warning m s = writeString (m ++ ['\n']) (setPriority Priority.PRIO_WARNING s) ∧
      (LogStream.warning m s).emissions = s.emissions ++ [⟨m, Priority.PRIO_WARNING⟩] ∧
      (LogStream.warning m s).message = []) ∧
    (LogStream.notice m s = writeString (m ++ ['\n']) (setPriority Priority.PRIO_NOTICE s) ∧
      (LogStream.notice m s).emissions = s.emissions ++ [⟨m, Priority.PRIO_NOTICE⟩] ∧
      (LogStream.notice m s).message = []) ∧
    (LogStream.information m s
        = writeString (m ++ ['\n']) (setPriority Priority.PRIO_INFORMATION s) ∧
      (LogStream.information m s).emissions
        = s.emissions ++ [⟨m, Priority.PRIO_INFORMATION⟩] ∧
      (LogStream.information m s).message = []) ∧
    (LogStream.debug m s = writeString (m ++ ['\n']) (setPriority Priority.PRIO_DEBUG s) ∧
      (LogStream.debug m s).emissions = s.emissions ++ [⟨m, Priority.PRIO_DEBUG⟩] ∧
      (LogStream.debug m s).message = []) ∧
    (LogStream.trace m s = writeString (m ++ ['\n']) (setPriority Priority.PRIO_TRACE s) ∧
      (LogStream.trace m s).emissions = s.emissions ++ [⟨m, Priority.PRIO_TRACE⟩] ∧
      (LogStream.trace m s).message = []) :=
  ⟨⟨rfl, facade_emits Priority.PRIO_FATAL m s hm hs⟩,
    ⟨rfl, facade_emits Priority.PRIO_CRITICAL m s hm hs⟩,
    ⟨rfl, facade_emits Priority.PRIO_ERROR m s hm hs⟩,
    ⟨rfl, facade_emits Priority.PRIO_WARNING m s hm hs⟩,
    ⟨rfl, facade_emits Priority.PRIO_NOTICE m s hm hs⟩,
    ⟨rfl, facade_emits Priority.PRIO_INFORMATION m s hm hs⟩,
    ⟨rfl, facade_emits Priority.PRIO_DEBUG m s hm hs⟩,
    ⟨rfl, facade_emits Priority.PRIO_TRACE m s hm hs⟩⟩

/-- Witness for C5 (amended) at `m = "oops"` from a fresh adapter: the
`error` façade emits exactly one line `"oops"` at error severity. -/
theorem facade_methods_equivalence_witness :
    (LogStream.error ['o', 'o', 'p', 's'] LogStream.mkDefault).emissions
      = LogStream.mkDefault.emissions ++ [⟨['o', 'o', 'p', 's'], Priority.PRIO_ERROR⟩] ∧
    (LogStream.error ['o', 'o', 'p', 's'] LogStream.mkDefault).message = [] :=
  (facade_methods_equivalence ['o', 'o', 'p', 's'] LogStream.mkDefault
    (by decide) rfl).2.2.1.2

/-- The part of the adapter state that is observable through emissions and
future behavior: priority, line buffer and emission trace (everything but
the capacity hint). -/
def obs (s : LogStreamBuf) : Priority × List Char × List Emission :=
  (s.priority, s.message, s.emissions)

theorem obs_step (s t : LogStreamBuf) (h : obs s = obs t) (op : Op) :
    obs (step s op) = obs (step t op) := by
  have h1 : s.priority = t.priority := congrArg (fun x => x.1) h
  have h2 : s.message = t.message := congrArg (fun x => x.2.1) h
  have h3 : s.emissions = t.emissions := congrArg (fun x => x.2.2) h
  cases op with
  | write c =>
    simp only [step, writeToDevice]
    split <;> simp [obs, h1, h2, h3]
  | setSeverity p => simp [step, setPriority, obs, h1, h2, h3]
  | reserveCap n => simp [step, reserve, obs, h1, h2, h3]
  | flushBuf =>
    simp only [step, flush, h2]
    split <;> simp [obs, h1, h2, h3]

theorem obs_run (ops : List Op) (s t : LogStreamBuf) (h : obs s = obs t) :
    obs (run ops s) = obs (run ops t) := by
  induction ops generalizing s t with
  | nil => exact h
  | cons op rest ih => exact ih _ _ (obs_step s t h op)

/-- Claim C6: `reserve(n)` causes no observable behavioral change — after
any subsequent sequence of operations, the emission trace (and the line
buffer and severity) are identical to what they would have been without
the `reserve` call. -/
theorem reserve_no_observable_change (n : Nat) (ops : List Op) (s : LogStreamBuf) :
    (run ops (reserve n s)).emissions = (run ops s).emissions ∧
    (run ops (reserve n s)).message = (run ops s).message ∧
    (run ops (reserve n s)).priority = (run ops s).priority := by
  have h := obs_run ops (reserve n s) s rfl
  refine ⟨congrArg (fun x => x.2.2) h, congrArg (fun x => x.2.1) h,
    congrArg (fun x => x.1) h⟩

/-- The line-buffer contents predicted by claim C8's wording: exactly the
non-terminator characters written since the most recent terminator (or
since construction).  Severity changes, reserve and flush do not move the
reference point. -/
def claimedBuffer (ops : List Op) : List Char :=
  ops.foldl (fun acc op =>
    match op with
    | Op.write c => if isTerm c then [] else acc ++ [c]
    | _ => acc) []

/-- The line-buffer contents with the reference point also reset by an
explicit flush: the non-terminator characters written since the most
recent terminator or flush (or since construction). -/
def trackedBuffer (acc : List Char) (ops : List Op) : List Char :=
  ops.foldl (fun a op =>
    match op with
    | Op.write c => if isTerm c then [] else a ++ [c]
    | Op.flushBuf => []
    | _ => a) acc

theorem step_message (s : LogStreamBuf) (op : Op) :
    (step s op).message =
      match op with
      | Op.write c => if isTerm c then [] else s.message ++ [c]
      | Op.flushBuf => []
      | _ => s.message := by
  cases op with
  | write c =>
    simp only [step, writeToDevice]
    split <;> simp_all
  | setSeverity p => rfl
  | reserveCap n => rfl
  | flushBuf =>
    simp only [step, flush]
    split <;> simp_all [List.isEmpty_iff]

theorem run_message (ops : List Op) (s : LogStreamBuf) :
    (run ops s).message = trackedBuffer s.message ops := by
  induction ops generalizing s with
  | nil => rfl
  | cons op rest ih =>
    have hstep := step_message s op
    cases op with
    | write c =>
      by_cases hc : isTerm c
      · simp only [run, List.foldl, trackedBuffer] at *
        rw [ih (step s (Op.write c))]
        simp [trackedBuffer, hstep, hc]
      · simp only [run, List.foldl, trackedBuffer] at *
        rw [ih (step s (Op.write c))]
        simp [trackedBuffer, hstep, hc]
    | setSeverity p =>
      simp only [run, List.foldl, trackedBuffer] at *
      rw [ih (step s (Op.setSeverity p))]
      simp [trackedBuffer, hstep]
    | reserveCap n =>
      simp only [run, List.foldl, trackedBuffer] at *
      rw [ih (step s (Op.reserveCap n))]
      simp [trackedBuffer, hstep]
    | flushBuf =>
      simp only [run, List.foldl, trackedBuffer] at *
      rw [ih (step s Op.flushBuf)]
      simp [trackedBuffer, hstep]

theorem trackedBuffer_no_term (ops : List Op) (acc : List Char)
    (h : acc.all (fun c => !(isTerm c)) = true) :
    (trackedBuffer acc ops).all (fun c => !(isTerm c)) = true := by
  induction ops generalizing acc with
  | nil => exact h
  | cons op rest ih =>
    cases op with
    | write c =>
      have hcons : trackedBuffer acc (Op.write c :: rest)
          = trackedBuffer (if isTerm c then [] else acc ++ [c]) rest := rfl
      rw [hcons]
      by_cases hc : isTerm c
      · rw [if_pos hc]
        exact ih [] rfl
      · rw [if_neg hc]
        apply ih
        have hc2 : isTerm c = false := by simpa using hc
        simp [List.all_append, h, hc2]
    | setSeverity p => exact ih acc h
    | reserveCap n => exact ih acc h
    | flushBuf => exact ih [] (by simp)

/-- Counterexample to claim C8: the claimed invariant — the buffer holds
exactly the non-terminator characters written since the most recent
terminator (or construction) — is not preserved by `flush`: writing `'p'`
and then flushing leaves the buffer empty although `'p'` was written and
no terminator ever arrived. -/
theorem buffer_invariant_counterexample :
    (run [Op.write 'p', Op.flushBuf] LogStream.mkDefault).message
      ≠ claimedBuffer [Op.write 'p', Op.flushBuf] := by
  decide

/-- Claim C8 (amended): after any sequence of operations from a fresh
adapter, the line buffer contains exactly the non-terminator characters
written since the most recent terminator or explicit flush (or since
construction); in particular it never contains a carriage-return or
line-feed. -/
theorem buffer_invariant (ops : List Op) (p : Priority) (n : Nat) :
    (run ops (mkLogStreamBuf p n)).message = trackedBuffer [] ops ∧
    ((run ops (mkLogStreamBuf p n)).message.all (fun c => !(isTerm c))) = true := by
  have h := run_message ops (mkLogStreamBuf p n)
  refine ⟨h, ?_⟩
  rw [h]
  exact trackedBuffer_no_term ops [] rfl

end Poco
